import Mathlib

/-!
Verification of the long-barrel ideal-geometry XML configuration file
(`trunk/xml/longbarrel_cmsIdealGeometryXML_cff.py`).

The file imports a default configuration and then performs a single
assignment of a literal list of 101 XML path strings to the attribute
`XMLIdealGeometryESSource.geomXMLFiles`.  We embed the literal list and
a small operational model of the file's two effects (the star-import of
the default configuration, and the assignment), and prove the stated
properties of the list and of the evaluation.
-/

set_option maxRecDepth 100000

namespace TkGeometry

/-- The literal list of path strings assigned to
`XMLIdealGeometryESSource.geomXMLFiles` on lines 5-107 of
`trunk/xml/longbarrel_cmsIdealGeometryXML_cff.py`, one string per line
(lines 6-106), transcribed in order. -/
def geomXMLFiles : List String := [
    "SLHCUpgradeSimulations/Geometry/data/longbarrel/materials.xml",
    "Geometry/CMSCommonData/data/rotations.xml",
    "Geometry/CMSCommonData/data/normal/cmsextent.xml",
    "Geometry/CMSCommonData/data/cms.xml",
    "Geometry/CMSCommonData/data/cmsMother.xml",
    "Geometry/CMSCommonData/data/cmsTracker.xml",
    "Geometry/CMSCommonData/data/caloBase.xml",
    "Geometry/CMSCommonData/data/cmsCalo.xml",
    "Geometry/CMSCommonData/data/muonBase.xml",
    "Geometry/CMSCommonData/data/cmsMuon.xml",
    "Geometry/CMSCommonData/data/mgnt.xml",
    "Geometry/CMSCommonData/data/beampipe.xml",
    "Geometry/CMSCommonData/data/cmsBeam.xml",
    "Geometry/CMSCommonData/data/muonMB.xml",
    "Geometry/CMSCommonData/data/muonMagnet.xml",
    "Geometry/TrackerCommonData/data/pixfwdMaterials.xml",
    "Geometry/TrackerCommonData/data/pixfwdCommon.xml",
    "Geometry/TrackerCommonData/data/pixfwdPlaq.xml",
    "Geometry/TrackerCommonData/data/pixfwdPlaq1x2.xml",
    "Geometry/TrackerCommonData/data/pixfwdPlaq1x5.xml",
    "Geometry/TrackerCommonData/data/pixfwdPlaq2x3.xml",
    "Geometry/TrackerCommonData/data/pixfwdPlaq2x4.xml",
    "Geometry/TrackerCommonData/data/pixfwdPlaq2x5.xml",
    "Geometry/TrackerCommonData/data/pixfwdPanelBase.xml",
    "Geometry/TrackerCommonData/data/pixfwdPanel.xml",
    "Geometry/TrackerCommonData/data/pixfwdBlade.xml",
    "Geometry/TrackerCommonData/data/pixfwdNipple.xml",
    "Geometry/TrackerCommonData/data/pixfwdDisk.xml",
    "Geometry/TrackerCommonData/data/pixfwdCylinder.xml",
    "SLHCUpgradeSimulations/Geometry/data/longbarrel/pixfwd.xml",
    "Geometry/TrackerCommonData/data/pixbarmaterial.xml",
    "Geometry/TrackerCommonData/data/pixbarladder.xml",
    "Geometry/TrackerCommonData/data/pixbarladderfull.xml",
    "Geometry/TrackerCommonData/data/pixbarladderhalf.xml",
    "Geometry/TrackerCommonData/data/pixbarlayer.xml",
    "SLHCUpgradeSimulations/Geometry/data/longbarrel/pixbarlayer0.xml",
    "SLHCUpgradeSimulations/Geometry/data/longbarrel/pixbarlayer1.xml",
    "SLHCUpgradeSimulations/Geometry/data/longbarrel/pixbarlayer2.xml",
    "SLHCUpgradeSimulations/Geometry/data/longbarrel/pixbarlayer3.xml",
    "SLHCUpgradeSimulations/Geometry/data/longbarrel/pixbar.xml",
    "SLHCUpgradeSimulations/Geometry/data/longbarrel/newtracker.xml",
    "Geometry/TrackerCommonData/data/trackermaterial.xml",
    "Geometry/TrackerCommonData/data/tracker.xml",
    "Geometry/TrackerCommonData/data/trackerpixbar.xml",
    "Geometry/TrackerCommonData/data/trackerpixfwd.xml",
    "Geometry/TrackerCommonData/data/trackerother.xml",
    "Geometry/EcalCommonData/data/eregalgo.xml",
    "Geometry/EcalCommonData/data/ebalgo.xml",
    "Geometry/EcalCommonData/data/ebcon.xml",
    "Geometry/EcalCommonData/data/ebrot.xml",
    "Geometry/EcalCommonData/data/eecon.xml",
    "Geometry/EcalCommonData/data/eefixed.xml",
    "Geometry/EcalCommonData/data/eehier.xml",
    "Geometry/EcalCommonData/data/eealgo.xml",
    "Geometry/EcalCommonData/data/escon.xml",
    "Geometry/EcalCommonData/data/esalgo.xml",
    "Geometry/EcalCommonData/data/eeF.xml",
    "Geometry/EcalCommonData/data/eeB.xml",
    "Geometry/HcalCommonData/data/hcalrotations.xml",
    "Geometry/HcalCommonData/data/hcalalgo.xml",
    "Geometry/HcalCommonData/data/hcalbarrelalgo.xml",
    "Geometry/HcalCommonData/data/hcalendcapalgo.xml",
    "Geometry/HcalCommonData/data/hcalouteralgo.xml",
    "Geometry/HcalCommonData/data/hcalforwardalgo.xml",
    "Geometry/HcalCommonData/data/hcalforwardfibre.xml",
    "Geometry/HcalCommonData/data/hcalforwardmaterial.xml",
    "Geometry/MuonCommonData/data/mbCommon.xml",
    "Geometry/MuonCommonData/data/mb1.xml",
    "Geometry/MuonCommonData/data/mb2.xml",
    "Geometry/MuonCommonData/data/mb3.xml",
    "Geometry/MuonCommonData/data/mb4.xml",
    "Geometry/MuonCommonData/data/muonYoke.xml",
    "Geometry/MuonCommonData/data/mf.xml",
    "Geometry/ForwardCommonData/data/forward.xml",
    "Geometry/ForwardCommonData/data/forwardshield.xml",
    "Geometry/ForwardCommonData/data/brmrotations.xml",
    "Geometry/ForwardCommonData/data/brm.xml",
    "Geometry/ForwardCommonData/data/totemMaterials.xml",
    "Geometry/ForwardCommonData/data/totemRotations.xml",
    "Geometry/ForwardCommonData/data/totemt1.xml",
    "Geometry/ForwardCommonData/data/totemt2.xml",
    "Geometry/ForwardCommonData/data/ionpump.xml",
    "Geometry/MuonCommonData/data/muonNumbering.xml",
    "SLHCUpgradeSimulations/Geometry/data/longbarrel/trackerStructureTopology.xml",
    "SLHCUpgradeSimulations/Geometry/data/longbarrel/trackersens.xml",
    "SLHCUpgradeSimulations/Geometry/data/longbarrel/trackerRecoMaterial.xml",
    "Geometry/EcalSimData/data/ecalsens.xml",
    "Geometry/HcalCommonData/data/hcalsens.xml",
    "Geometry/HcalSimData/data/CaloUtil.xml",
    "Geometry/MuonSimData/data/muonSens.xml",
    "Geometry/DTGeometryBuilder/data/dtSpecsFilter.xml",
    "Geometry/CSCGeometryBuilder/data/cscSpecsFilter.xml",
    "Geometry/CSCGeometryBuilder/data/cscSpecs.xml",
    "Geometry/RPCGeometryBuilder/data/RPCSpecs.xml",
    "Geometry/ForwardCommonData/data/brmsens.xml",
    "Geometry/HcalSimData/data/HcalProdCuts.xml",
    "Geometry/EcalSimData/data/EcalProdCuts.xml",
    "SLHCUpgradeSimulations/Geometry/data/longbarrel/trackerProdCuts.xml",
    "Geometry/TrackerSimData/data/trackerProdCutsBEAM.xml",
    "Geometry/MuonSimData/data/muonProdCuts.xml",
    "Geometry/CMSCommonData/data/FieldParameters.xml"]

/-! ## Operational model of the configuration file

The file has exactly two statements with an effect on the configuration
state: line 3, `from Geometry.CMSCommonData.cmsIdealGeometryXML_cfi import *`,
which brings in the `XMLIdealGeometryESSource` object carrying whatever
default `geomXMLFiles` list the imported module installed, and line 5,
the assignment `XMLIdealGeometryESSource.geomXMLFiles = cms.vstring(...)`.
We model the state as the value of that one attribute and the file as the
two-statement sequence. -/

/-- The configuration state this file touches: the `geomXMLFiles`
attribute of the `XMLIdealGeometryESSource` object. -/
structure GeometryConfig where
  geomXMLFiles : List String
deriving DecidableEq, Repr

/-- The effectful statements of the configuration file: the star-import
of the default configuration (line 3), which installs the imported
default list `d`, and an assignment to the attribute (line 5). -/
inductive Stmt where
  | importDefault (d : List String)
  | assignGeomXMLFiles (l : List String)
deriving DecidableEq, Repr

/-- Whether a statement is an explicit assignment to
`XMLIdealGeometryESSource.geomXMLFiles`. -/
def Stmt.isAssignGeom : Stmt → Bool
  | .assignGeomXMLFiles _ => true
  | .importDefault _ => false

/-- Effect of one statement on the configuration state. -/
def execStmt (s : GeometryConfig) (st : Stmt) : GeometryConfig :=
  match st with
  | .importDefault d => { s with geomXMLFiles := d }
  | .assignGeomXMLFiles l => { s with geomXMLFiles := l }

/-- Run a statement sequence from a starting state. -/
def run (p : List Stmt) (s : GeometryConfig) : GeometryConfig :=
  p.foldl execStmt s

/-- The statement sequence of `longbarrel_cmsIdealGeometryXML_cff.py`:
the import of the default configuration (whose list `d` is whatever
`cmsIdealGeometryXML_cfi` provides) followed by the single assignment of
the literal list. -/
def configFile (d : List String) : List Stmt :=
  [Stmt.importDefault d, Stmt.assignGeomXMLFiles geomXMLFiles]

/-- Evaluating the configuration file: run its statements with imported
default `d` from state `s`. -/
def evalConfigFile (d : List String) (s : GeometryConfig) : GeometryConfig :=
  run (configFile d) s

/-! ## Path predicates -/

/-- A character acceptable inside a filesystem path entry: not NUL, not a
newline or carriage return, not a tab, not a space. -/
def validPathChar (c : Char) : Bool :=
  c ≠ Char.ofNat 0 && c ≠ '\n' && c ≠ '\r' && c ≠ '\t' && c ≠ ' '

/-- A non-empty relative path: not the empty string, not starting with
`/`, and containing only acceptable path characters. -/
def isValidRelPath (s : String) : Bool :=
  !s.data.isEmpty && s.data.head? ≠ some '/' && s.data.all validPathChar

/-- `strStartsWith p s`: the character sequence of `p` is an initial
segment of the character sequence of `s`. -/
def strStartsWith (p s : String) : Bool :=
  p.data.isPrefixOf s.data

/-- `strEndsWith p s`: the character sequence of `p` is a final segment
of the character sequence of `s`. -/
def strEndsWith (p s : String) : Bool :=
  p.data.isSuffixOf s.data

/-- The long-barrel override directory. -/
def longBarrelDir : String := "SLHCUpgradeSimulations/Geometry/data/longbarrel/"

/-- The standard geometry directory root. -/
def geometryDir : String := "Geometry/"

/-! ## Entry classification for the dependency-order property

The spec classifies entries as materials, rotations, detector-volume,
sensitive-detector (`sens`) overlay and production-cut (`ProdCuts`)
overlay entries.  We classify by file name, case-insensitively:
an entry is a materials entry if its name contains `material`, a
rotations entry if it contains `rotations`, a sens entry if it contains
`sens`, a ProdCuts entry if it contains `prodcuts`, and a
detector-volume entry otherwise. -/

/-- `segIn p cs`: `p` occurs as a contiguous segment of `cs`. -/
def segIn (p : List Char) : List Char → Bool
  | [] => p.isEmpty
  | c :: cs => p.isPrefixOf (c :: cs) || segIn p cs

/-- The characters of `s`, lower-cased. -/
def lowerData (s : String) : List Char :=
  s.data.map Char.toLower

/-- Materials entry: name contains `material` (case-insensitive). -/
def isMaterialsEntry (s : String) : Bool :=
  segIn "material".data (lowerData s)

/-- Rotations entry: name contains `rotations` (case-insensitive). -/
def isRotationsEntry (s : String) : Bool :=
  segIn "rotations".data (lowerData s)

/-- Sensitive-detector overlay entry: name contains `sens`
(case-insensitive). -/
def isSensEntry (s : String) : Bool :=
  segIn "sens".data (lowerData s)

/-- Production-cut overlay entry: name contains `ProdCuts`
(case-insensitive). -/
def isProdCutsEntry (s : String) : Bool :=
  segIn "prodcuts".data (lowerData s)

/-- Detector-volume entry: any entry in none of the other classes. -/
def isVolumeEntry (s : String) : Bool :=
  !(isMaterialsEntry s || isRotationsEntry s || isSensEntry s || isProdCutsEntry s)

/-- The dependency-order property as the spec states it: every materials
entry and every rotations entry precedes every detector-volume entry,
and every detector-volume entry precedes every sens overlay entry and
every ProdCuts overlay entry. -/
def depOrderClaim (l : List String) : Prop :=
  ∀ i, i < l.length → ∀ j, j < l.length →
    ((isMaterialsEntry (l.getD i "") || isRotationsEntry (l.getD i "")) = true →
      isVolumeEntry (l.getD j "") = true → i < j) ∧
    (isVolumeEntry (l.getD i "") = true →
      (isSensEntry (l.getD j "") || isProdCutsEntry (l.getD j "")) = true → i < j)

/-! ## Newline-delimited serialization

An order-preserving interchange format for the list: entries joined by a
single newline character, split back at newlines. -/

/-- Serialize a list of strings to newline-delimited text, as a
character sequence: entries joined by a single `\n`. -/
def joinLines : List String → List Char
  | [] => []
  | [s] => s.data
  | s :: rest => s.data ++ '\n' :: joinLines rest

/-- Split a character sequence at newlines, accumulating the current
line in `acc` (in reverse). -/
def splitLinesAux (acc : List Char) : List Char → List String
  | [] => [String.mk acc.reverse]
  | c :: cs =>
      if c = '\n' then String.mk acc.reverse :: splitLinesAux [] cs
      else splitLinesAux (c :: acc) cs

/-- Deserialize newline-delimited text into the list of its lines. -/
def splitLines (cs : List Char) : List String :=
  splitLinesAux [] cs

/-! ## Theorems -/

/-- Auxiliary fact: the literal list has no duplicate entries. -/
theorem geomXMLFiles_nodup_aux : geomXMLFiles.Nodup := by decide

/-- C1: evaluating the configuration file produces, as the value of the
attribute XMLIdealGeometryESSource.geomXMLFiles, exactly the ordered
sequence of path strings written in the source: whatever the imported
default and starting state, the produced list equals the literal list,
and for every index i the i-th produced element is identical to the i-th
string literal of the assignment. -/
theorem evalConfigFile_reproduces_list (d : List String) (s : GeometryConfig) :
    (evalConfigFile d s).geomXMLFiles = geomXMLFiles ∧
    ∀ i, i < geomXMLFiles.length →
      (evalConfigFile d s).geomXMLFiles.getD i "" = geomXMLFiles.getD i "" :=
  ⟨rfl, fun _ _ => rfl⟩

/-- Witness for C1: the theorem applied at the empty default, the empty
starting state and index 0. -/
theorem evalConfigFile_reproduces_list_witness :
    (0 : ℕ) < geomXMLFiles.length ∧
    (evalConfigFile [] ⟨[]⟩).geomXMLFiles.getD 0 "" = geomXMLFiles.getD 0 "" :=
  ⟨by decide, (evalConfigFile_reproduces_list [] ⟨[]⟩).2 0 (by decide)⟩

/-- C2: the list assigned to XMLIdealGeometryESSource.geomXMLFiles
contains exactly 101 entries. -/
theorem geomXMLFiles_length_eq : geomXMLFiles.length = 101 := by rfl

/-- C3: every entry of the geomXMLFiles list is a non-empty relative
path string: no entry is empty, none begins with a slash, and none
contains NUL, newline, carriage return, tab or space. -/
theorem geomXMLFiles_entries_valid : geomXMLFiles.all isValidRelPath = true := by
  decide

/-- C4: the entries of geomXMLFiles are pairwise distinct: for every
pair of distinct in-range indices, the entries at those indices are
different strings. -/
theorem geomXMLFiles_pairwise_distinct (i j : ℕ)
    (hi : i < geomXMLFiles.length) (hj : j < geomXMLFiles.length) (hij : i ≠ j) :
    geomXMLFiles.getD i "" ≠ geomXMLFiles.getD j "" := by
  rw [List.getD_eq_getElem _ _ hi, List.getD_eq_getElem _ _ hj]
  intro h
  exact hij ((List.Nodup.getElem_inj_iff geomXMLFiles_nodup_aux).mp h)

/-- Witness for C4: the theorem applied at indices 0 and 1. -/
theorem geomXMLFiles_pairwise_distinct_witness :
    geomXMLFiles.getD 0 "" ≠ geomXMLFiles.getD 1 "" :=
  geomXMLFiles_pairwise_distinct 0 1 (by decide) (by decide) (by decide)

/-- C5, counterexample: the dependency-order property as stated fails on
the list.  The rotations entry hcalrotations.xml sits at index 58, after
the detector-volume entry cms.xml at index 3, so not every rotations
entry precedes every detector-volume entry. -/
theorem geomXMLFiles_dep_order_counterexample : ¬ depOrderClaim geomXMLFiles := by
  intro h
  have h58 := (h 58 (by decide) 3 (by decide)).1 (by decide) (by decide)
  exact absurd h58 (by decide)

/-- C5, amended: the global materials entry and the global rotations
entry are the first two entries of the list (hence precede every
detector-volume entry), and every sens overlay entry precedes every
ProdCuts overlay entry; subdetector-specific materials and rotations
entries, however, are interleaved with volume entries. -/
theorem geomXMLFiles_dep_order_amended :
    isMaterialsEntry (geomXMLFiles.getD 0 "") = true ∧
    isRotationsEntry (geomXMLFiles.getD 1 "") = true ∧
    (∀ i, i < geomXMLFiles.length → ∀ j, j < geomXMLFiles.length →
      isSensEntry (geomXMLFiles.getD i "") = true →
      isProdCutsEntry (geomXMLFiles.getD j "") = true → i < j) :=
  ⟨by decide, by decide, by decide⟩

/-- Witness for the amended C5: the ordering part applied at the sens
entry at index 84 and the ProdCuts entry at index 95. -/
theorem geomXMLFiles_dep_order_amended_witness :
    isSensEntry (geomXMLFiles.getD 84 "") = true ∧
    isProdCutsEntry (geomXMLFiles.getD 95 "") = true ∧ (84 : ℕ) < 95 :=
  ⟨by decide, by decide,
    geomXMLFiles_dep_order_amended.2.2 84 (by decide) 95 (by decide) (by decide) (by decide)⟩

/-- C6: the sequence is immutable after its single construction: the
file contains exactly one assignment statement to the attribute, that
assignment is its last effectful statement, and the final state carries
the literal list. -/
theorem configFile_single_assignment (d : List String) (s : GeometryConfig) :
    (configFile d).filter Stmt.isAssignGeom = [Stmt.assignGeomXMLFiles geomXMLFiles] ∧
    (configFile d).getLast? = some (Stmt.assignGeomXMLFiles geomXMLFiles) ∧
    (evalConfigFile d s).geomXMLFiles = geomXMLFiles :=
  ⟨rfl, rfl, rfl⟩

/-- C7: round-trip: serializing the geomXMLFiles list to
newline-delimited text and deserializing yields the original list,
element by element and in order. -/
theorem geomXMLFiles_roundtrip : splitLines (joinLines geomXMLFiles) = geomXMLFiles := by
  decide

/-- C8: every entry of the geomXMLFiles list ends with the suffix
.xml. -/
theorem geomXMLFiles_xml_suffix :
    geomXMLFiles.all (fun s => strEndsWith ".xml" s) = true := by decide

/-- C9: every entry of the geomXMLFiles list begins with Geometry/ or
with the long-barrel override directory, and exactly 12 entries carry
the long-barrel override directory. -/
theorem geomXMLFiles_two_roots :
    geomXMLFiles.all
      (fun s => strStartsWith geometryDir s || strStartsWith longBarrelDir s) = true ∧
    geomXMLFiles.countP (fun s => strStartsWith longBarrelDir s) = 12 :=
  ⟨by decide, by decide⟩

/-- C10: the final value of XMLIdealGeometryESSource.geomXMLFiles does
not depend on the imported default: any two runs of the file, whatever
their imported default lists and starting states, produce the same
101-entry literal list. -/
theorem evalConfigFile_ignores_default (d₁ d₂ : List String) (s₁ s₂ : GeometryConfig) :
    (evalConfigFile d₁ s₁).geomXMLFiles = (evalConfigFile d₂ s₂).geomXMLFiles ∧
    (evalConfigFile d₁ s₁).geomXMLFiles = geomXMLFiles ∧
    (evalConfigFile d₁ s₁).geomXMLFiles.length = 101 :=
  ⟨rfl, rfl, rfl⟩

end TkGeometry
